import Mathlib

/-!
Shallow embedding of the notion-ds-manager property/schema/filter core
(src/properties.py, src/filters.py, src/core.py) and proofs of the
spec-derived claims about it.

Python runtime values are modelled by the inductive `Val` (floats as
rationals; dicts as insertion-ordered association lists, matching CPython
dict semantics for the unique-key dicts manipulated here).  Code that can
raise is modelled in `Except PyErr`.
-/

namespace NotionDs

/-- Python exceptions raised by the embedded code.  `unknownKeys` carries the
payload of `KeyError(f"Unknown properties passed: ...")` as the list of
offending keys rather than a rendered set literal. -/
inductive PyErr where
  | typeError (msg : String)
  | valueError (msg : String)
  | keyError (msg : String)
  | unknownKeys (keys : List String)
  | attributeError (attr : String)
  | notImplementedError (msg : String)

/-- Python values: None, bool, int, float (modelled as an exact rational,
which agrees with CPython on every arithmetic fact used here), str, list,
dict (insertion-ordered association list). -/
inductive Val where
  | none
  | bool (b : Bool)
  | int (n : Int)
  | float (q : ℚ)
  | str (s : String)
  | list (xs : List Val)
  | dict (kvs : List (String × Val))

/-- Python truthiness (`bool(v)`) for the value shapes above. -/
def Val.truthy : Val → Bool
  | .none => false
  | .bool b => b
  | .int n => n != 0
  | .float q => q != 0
  | .str s => s ≠ ""
  | .list xs => !xs.isEmpty
  | .dict kvs => !kvs.isEmpty

/-- Support for `k in d` / `d[k]`: the binding of `k` in a dict, if any. -/
def Val.lookup? (d : Val) (k : String) : Option Val :=
  match d with
  | .dict kvs => List.lookup k kvs
  | _ => Option.none

/-- Python `d.get(k)` (default `None`). -/
def Val.get (d : Val) (k : String) : Val :=
  (d.lookup? k).getD .none

/-- Python `d.get(k, dflt)`. -/
def Val.getD (d : Val) (k : String) (dflt : Val) : Val :=
  (d.lookup? k).getD dflt

/-- Python subscript `d[k]`: raises `KeyError` when the key is missing and
`TypeError` when the receiver is not a dict. -/
def Val.item (d : Val) (k : String) : Except PyErr Val :=
  match d with
  | .dict kvs =>
    match List.lookup k kvs with
    | some v => .ok v
    | Option.none => .error (.keyError k)
  | _ => .error (.typeError "value is not subscriptable")

/-- A value that must be a `str` (e.g. an element fed to `"".join`). -/
def Val.asStr : Val → Except PyErr String
  | .str s => .ok s
  | _ => .error (.typeError "expected str instance")

/-- Python iteration `[... for x in v]`: lists yield their elements, strings
their characters, dicts their keys; other values raise `TypeError`
(in particular `None`, which is what `MultiSelect.value(None)` hits). -/
def Val.pyIter : Val → Except PyErr (List Val)
  | .list xs => .ok xs
  | .str s => .ok (s.toList.map (fun c => .str c.toString))
  | .dict kvs => .ok (kvs.map (fun p => .str p.1))
  | _ => .error (.typeError "object is not iterable")

/-- Python `str(v)`.  List/dict renderings are abbreviated: they are never
blank after `strip()` and no claim observes their exact text. -/
def Val.pyStr : Val → String
  | .none => "None"
  | .bool true => "True"
  | .bool false => "False"
  | .int n => toString n
  | .float q => toString q
  | .str s => s
  | .list _ => "[...]"
  | .dict _ => "\x7b...\x7d"

/-- The guard `value is None or str(value).strip() == ''` shared by the
`to_notion_filter` implementations.  `str(v).strip()` is empty exactly when
every character of the string is whitespace; `str()` of a
bool/number/list/dict never strips to empty. -/
def Val.isBlank : Val → Bool
  | .none => true
  | .str s => s.toList.all Char.isWhitespace
  | _ => false

/-- The Property variants of properties.py, carrying their constructor
state (`name` plus variant-specific metadata). -/
inductive Property where
  | title (name : String)
  | rich_text (name : String)
  | number (name : String)
  | checkbox (name : String)
  | date (name : String)
  | created_time (name : String)
  | last_edited_time (name : String)
  | created_by (name : String)
  | last_edited_by (name : String)
  | select (name : String) (options : List String)
  | multi_select (name : String) (options : List String)
  | relation (name : String) (data_source_id : Option String)
  | files (name : String)
  | rollup (name : String) (relation_property_name : String)
      (rollup_property_name : String) (function : String)

/-- The `self.name` attribute. -/
def Property.name : Property → String
  | .title n | .rich_text n | .number n | .checkbox n | .date n
  | .created_time n | .last_edited_time n | .created_by n | .last_edited_by n
  | .select n _ | .multi_select n _ | .relation n _ | .files n
  | .rollup n _ _ _ => n

/-- The read-only variants (spec §3): computed timestamps, user references
and rollups.  They reject every encode attempt. -/
def Property.read_only : Property → Bool
  | .created_time _ | .last_edited_time _ | .created_by _ | .last_edited_by _
  | .rollup _ _ _ _ => true
  | _ => false

/-- The `isinstance(prop, (CreatedTime, LastEditedTime, CreatedBy,
LastEditedBy))` check of `SchemaTemplate.to_page` (note: `Rollup` is not in
this tuple). -/
def Property.isTimestampOrUser : Property → Bool
  | .created_time _ | .last_edited_time _ | .created_by _ | .last_edited_by _ => true
  | _ => false

/-- Embeds `Property.value`: plain value → page-property dict `{name: fragment}`.
Read-only variants raise `ValueError`; `MultiSelect`/`Relation` iterate their
argument and so raise `TypeError` on non-iterables (e.g. `None`). -/
def Property.value : Property → Val → Except PyErr Val
  | .title n, text =>
    .ok (.dict [(n, .dict [("title",
      .list [.dict [("type", .str "text"), ("text", .dict [("content", text)])]])])])
  | .rich_text n, text =>
    .ok (.dict [(n, .dict [("rich_text",
      .list [.dict [("type", .str "text"), ("text", .dict [("content", text)])]])])])
  | .number n, num => .ok (.dict [(n, .dict [("number", num)])])
  | .checkbox n, checked => .ok (.dict [(n, .dict [("checkbox", checked)])])
  | .date n, start =>
    -- single-argument call sites leave `end=None`, so no "end" key is added
    let date_dict : Val :=
      match start with
      | .none => Val.none
      | s => Val.dict [("start", s)]
    .ok (.dict [(n, .dict [("date", date_dict)])])
  | .created_time _, _ => .error (.valueError "Cannot set created_time manually")
  | .last_edited_time _, _ => .error (.valueError "Cannot set last_edited_time manually")
  | .created_by _, _ => .error (.valueError "Cannot set created_by manually")
  | .last_edited_by _, _ => .error (.valueError "Cannot set last_edited_by manually")
  | .select n _, nm => .ok (.dict [(n, .dict [("select", .dict [("name", nm)])])])
  | .multi_select n _, names => do
    let elems ← names.pyIter
    .ok (.dict [(n, .dict [("multi_select",
      .list (elems.map (fun x => Val.dict [("name", x)])))])])
  | .relation n _, ids => do
    let elems ← ids.pyIter
    .ok (.dict [(n, .dict [("relation",
      .list (elems.map (fun r => Val.dict [("id", r)])))])])
  | .files n, fs => .ok (.dict [(n, .dict [("files", fs)])])
  | .rollup _ _ _ _, _ => .error (.valueError "Cannot set rollup property manually")

/-- Embeds `Property.validate_value`: isinstance checks per variant.  A Python
`bool` passes `isinstance(value, (int, float))`, so `Number` accepts it. -/
def Property.validate_value : Property → Val → Except PyErr Unit
  | .title n, v =>
    match v with
    | .str _ => .ok ()
    | _ => .error (.typeError ("Property " ++ n ++ " expects a string"))
  | .rich_text n, v =>
    match v with
    | .str _ => .ok ()
    | _ => .error (.typeError ("Property " ++ n ++ " expects a string"))
  | .number n, v =>
    match v with
    | .int _ | .float _ | .bool _ => .ok ()
    | _ => .error (.typeError ("Number property " ++ n ++ " expects an int or float"))
  | .checkbox n, v =>
    match v with
    | .bool _ => .ok ()
    | _ => .error (.typeError ("Checkbox property " ++ n ++ " expects a boolean"))
  | .date n, v =>
    match v with
    | .str _ => .ok ()
    | _ => .error (.typeError ("Date property " ++ n ++ " expects a string (ISO format)"))
  | .created_time n, _ | .last_edited_time n, _ | .created_by n, _
  | .last_edited_by n, _ | .rollup n _ _ _, _ =>
    .error (.valueError ("Cannot set " ++ n ++ " property manually."))
  | .select n _, v =>
    match v with
    | .str _ => .ok ()
    | _ => .error (.typeError ("Select property " ++ n ++ " expects a string"))
  | .multi_select n _, v =>
    match v with
    | .list _ => .ok ()
    | _ => .error (.typeError ("MultiSelect property " ++ n ++ " expects a list of names"))
  | .relation n _, v =>
    match v with
    | .list _ => .ok ()
    | _ => .error (.typeError ("Relation property " ++ n ++ " expects a list of IDs"))
  | .files n, v =>
    match v with
    | .list _ => .ok ()
    | _ => .error (.typeError ("Files property " ++ n ++ " expects a list of file dictionaries."))

/-- A list comprehension whose element expression may raise: evaluate left
to right, stopping at the first exception. -/
def mapExcept (f : α → Except PyErr β) : List α → Except PyErr (List β)
  | [] => .ok []
  | x :: xs => do
    let y ← f x
    let ys ← mapExcept f xs
    .ok (y :: ys)

/-- Embeds `"".join([t["text"]["content"] for t in ...])` over a list of rich-text
runs: extract each run's text content (which must be a str) and concatenate. -/
def joinTextRuns (ts : List Val) : Except PyErr String := do
  let pieces ← mapExcept (fun t => do
    let tx ← t.item "text"
    let c ← tx.item "content"
    c.asStr) ts
  .ok (String.join pieces)

/-- Embeds `Property.from_page_value` for every non-rollup variant (the rollup
variant, which delegates to these, is defined below on top of this).  The
`.rollup` clause here is never reached: `PropClass.mkTemp` raises before
dispatching to a Rollup instance (`Rollup(name=...)` lacks three required
constructor arguments). -/
def Property.from_page_value_nr : Property → Val → Except PyErr Val
  | .title _, d =>
    match d.lookup? "title" with
    | some (.list ts) => do
      let s ← joinTextRuns ts
      .ok (.str s)
    | some _ => .error (.typeError "object is not iterable")
    | Option.none => .ok .none
  | .rich_text _, d =>
    match d.lookup? "rich_text" with
    | some (.list ts) => do
      let s ← joinTextRuns ts
      .ok (.str s)
    | some _ => .error (.typeError "object is not iterable")
    | Option.none => .ok .none
  | .number _, d =>
    match d.lookup? "number" with
    | some v => .ok v
    | Option.none => .ok .none
  | .checkbox _, d =>
    match d.lookup? "checkbox" with
    | some v => .ok v
    | Option.none => .ok .none
  | .date _, d =>
    match d.lookup? "date" with
    | some dd => if dd.truthy then dd.item "start" else .ok .none
    | Option.none => .ok .none
  | .created_time _, d => .ok (d.get "created_time")
  | .last_edited_time _, d => .ok (d.get "last_edited_time")
  | .created_by _, d =>
    let user_info := d.get "created_by"
    .ok (if user_info.truthy then user_info.get "id" else .none)
  | .last_edited_by _, d =>
    let user_info := d.get "last_edited_by"
    .ok (if user_info.truthy then user_info.get "id" else .none)
  | .select _ _, d =>
    match d.lookup? "select" with
    | some sv => if sv.truthy then sv.item "name" else .ok .none
    | Option.none => .ok .none
  | .multi_select _ _, d =>
    match d.lookup? "multi_select" with
    | some (.list items) => do
      let ns ← mapExcept (fun it => it.item "name") items
      .ok (.list ns)
    | some _ => .error (.typeError "object is not iterable")
    | Option.none => .ok .none
  | .relation _ _, d =>
    match d.lookup? "relation" with
    | some (.list items) => do
      let ids ← mapExcept (fun it => it.item "id") items
      .ok (.list ids)
    | some _ => .error (.typeError "object is not iterable")
    | Option.none => .ok .none
  | .files _, d =>
    match d.lookup? "files" with
    | some v => .ok v
    | Option.none => .ok (.list [])
  | .rollup _ _ _ _, _ => .ok .none

/-- The classes registered in the `PROPERTY_TYPES` table (before
instantiation). -/
inductive PropClass where
  | title | rich_text | number | checkbox | date | created_time
  | last_edited_time | created_by | last_edited_by | select | multi_select
  | relation | files | rollup

/-- The `PROPERTY_TYPES` kind-tag → class table of properties.py, including
the `"rollup"` entry appended after the `Rollup` definition. -/
def PROPERTY_TYPES : List (String × PropClass) :=
  [("title", .title), ("rich_text", .rich_text), ("number", .number),
   ("checkbox", .checkbox), ("date", .date), ("created_time", .created_time),
   ("last_edited_time", .last_edited_time), ("created_by", .created_by),
   ("last_edited_by", .last_edited_by), ("select", .select),
   ("multi_select", .multi_select), ("relation", .relation),
   ("files", .files), ("rollup", .rollup)]

/-- Embeds `PROPERTY_TYPES.get(tag)` where the tag comes from wire data and may be
any value; only string tags can match. -/
def lookupPropClass : Val → Option PropClass
  | .str s => List.lookup s PROPERTY_TYPES
  | _ => Option.none

/-- Embeds `PropClass(name="__temp_rollup_parser__")`: instantiate the looked-up
class with only a name, as `Rollup.from_page_value` does.  For the `Rollup`
class itself this call raises `TypeError` (three required constructor
arguments are missing), so a temp instance is never a rollup. -/
def PropClass.mkTemp : PropClass → Except PyErr Property
  | .title => .ok (.title "__temp_rollup_parser__")
  | .rich_text => .ok (.rich_text "__temp_rollup_parser__")
  | .number => .ok (.number "__temp_rollup_parser__")
  | .checkbox => .ok (.checkbox "__temp_rollup_parser__")
  | .date => .ok (.date "__temp_rollup_parser__")
  | .created_time => .ok (.created_time "__temp_rollup_parser__")
  | .last_edited_time => .ok (.last_edited_time "__temp_rollup_parser__")
  | .created_by => .ok (.created_by "__temp_rollup_parser__")
  | .last_edited_by => .ok (.last_edited_by "__temp_rollup_parser__")
  | .select => .ok (.select "__temp_rollup_parser__" [])
  | .multi_select => .ok (.multi_select "__temp_rollup_parser__" [])
  | .relation => .ok (.relation "__temp_rollup_parser__" Option.none)
  | .files => .ok (.files "__temp_rollup_parser__")
  | .rollup => .error (.typeError
      "Rollup() missing 3 required positional arguments")

/-- Embeds `rollup_type == 'array'` (false for any non-string). -/
def isArrayTag : Val → Bool
  | .str s => s == "array"
  | _ => false

/-- Embeds `Property.from_page_value`, including `Rollup.from_page_value`, which
inspects the wire fragment's reported element kind and delegates to the
matching variant's decoder (`from_page_value_nr`, since a temp instance is
never a rollup). -/
def Property.from_page_value : Property → Val → Except PyErr Val
  | .rollup _ _ _ _, notion_data =>
    let rollup_data := notion_data.get "rollup"
    if !rollup_data.truthy then .ok .none
    else
      let rollup_type := rollup_data.get "type"
      if isArrayTag rollup_type then
        let array_content := rollup_data.getD "array" (.list [])
        if !array_content.truthy then .ok (.list [])
        else
          match array_content with
          | .list items =>
            match items with
            | [] => .ok (.list [])
            | first :: _ =>
              let content_type := first.get "type"
              match lookupPropClass content_type with
              | Option.none => .ok array_content
              | some cls => do
                let temp_prop ← cls.mkTemp
                let vs ← mapExcept temp_prop.from_page_value_nr items
                .ok (.list vs)
          | _ => .error (.typeError "value is not subscriptable")
      else
        match lookupPropClass rollup_type with
        | Option.none => .ok rollup_data
        | some cls => do
          let temp_prop ← cls.mkTemp
          temp_prop.from_page_value_nr rollup_data
  | p, d => p.from_page_value_nr d

/-- A single-field Notion filter clause `{"property": name, key: {op: v}}`. -/
def propFilter (n : String) (key : String) (op : String) (v : Val) : Val :=
  .dict [("property", .str n), (key, .dict [(op, v)])]

/-- Embeds `Property.to_notion_filter`: each variant's default single-field filter
clause.  Text-like, number, date, select, multi-select and relation variants
map a blank/None operand to `is_empty`; `Files` accepts only `True`/`False`;
the base class and `Rollup` raise `NotImplementedError`. -/
def Property.to_notion_filter : Property → Val → Except PyErr Val
  | .title n, v =>
    if v.isBlank then .ok (propFilter n "title" "is_empty" (.bool true))
    else .ok (propFilter n "title" "contains" (.str v.pyStr))
  | .rich_text n, v =>
    if v.isBlank then .ok (propFilter n "rich_text" "is_empty" (.bool true))
    else .ok (propFilter n "rich_text" "contains" (.str v.pyStr))
  | .number n, v =>
    if v.isBlank then .ok (propFilter n "number" "is_empty" (.bool true))
    else .ok (propFilter n "number" "equals" v)
  | .checkbox n, v => .ok (propFilter n "checkbox" "equals" v)
  | .date n, v =>
    if v.isBlank then .ok (propFilter n "date" "is_empty" (.bool true))
    else .ok (propFilter n "date" "equals" v)
  | .created_time n, v => .ok (propFilter n "created_time" "on_or_after" v)
  | .last_edited_time n, v => .ok (propFilter n "last_edited_time" "on_or_after" v)
  | .created_by n, v => .ok (propFilter n "created_by" "equals" v)
  | .last_edited_by n, v => .ok (propFilter n "last_edited_by" "equals" v)
  | .select n _, v =>
    if v.isBlank then .ok (propFilter n "select" "is_empty" (.bool true))
    else .ok (propFilter n "select" "equals" v)
  | .multi_select n _, v =>
    if v.isBlank then .ok (propFilter n "multi_select" "is_empty" (.bool true))
    else .ok (propFilter n "multi_select" "contains" v)
  | .relation n _, v =>
    if v.isBlank then .ok (propFilter n "relation" "is_empty" (.bool true))
    else .ok (propFilter n "relation" "contains" v)
  | .files n, v =>
    match v with
    | .bool true => .ok (propFilter n "files" "is_not_empty" (.bool true))
    | .bool false => .ok (propFilter n "files" "is_empty" (.bool true))
    | _ => .error (.valueError
        "Files filter only supports True/False (is_not_empty/is_empty).")
  | .rollup _ _ _ _, _ => .error (.notImplementedError
      "Filtering for Rollup properties is complex and not yet implemented")

/-- The attribute access `prop.schema_key` performed by
`Filter._build_condition` (filters.py line 22).  No class in properties.py
defines a `schema_key` attribute (it occurs nowhere else in the repository),
so in Python this lookup raises `AttributeError` for every Property
instance. -/
def Property.schema_key : Property → Except PyErr String :=
  fun _ => .error (.attributeError "schema_key")

/-- FilterCondition objects (filters.py): an operator tag fixed by the
subclass plus the caller's operand. -/
structure FilterCondition where
  operator : String
  value : Val

def Equals (v : Val) : FilterCondition := ⟨"equals", v⟩

def DoesNotEqual (v : Val) : FilterCondition := ⟨"does_not_equal", v⟩

def Contains (v : Val) : FilterCondition := ⟨"contains", v⟩

def DoesNotContain (v : Val) : FilterCondition := ⟨"does_not_contain", v⟩

def StartsWith (v : Val) : FilterCondition := ⟨"starts_with", v⟩

def EndsWith (v : Val) : FilterCondition := ⟨"ends_with", v⟩

def GreaterThan (v : Val) : FilterCondition := ⟨"greater_than", v⟩

def LessThan (v : Val) : FilterCondition := ⟨"less_than", v⟩

def GreaterEquals (v : Val) : FilterCondition := ⟨"greater_than_or_equal_to", v⟩

def LessEquals (v : Val) : FilterCondition := ⟨"less_than_or_equal_to", v⟩

def Before (v : Val) : FilterCondition := ⟨"before", v⟩

def After (v : Val) : FilterCondition := ⟨"after", v⟩

def OnOrBefore (v : Val) : FilterCondition := ⟨"on_or_before", v⟩

def OnOrAfter (v : Val) : FilterCondition := ⟨"on_or_after", v⟩

def IsEmpty : FilterCondition := ⟨"is_empty", .bool true⟩

def IsNotEmpty : FilterCondition := ⟨"is_not_empty", .bool true⟩

/-- An operand as passed to the filter API: either a plain value or a
FilterCondition object (the `isinstance(value, FilterCondition)` split of
`Filter._get_prop_filter`). -/
inductive FilterArg where
  | plain (v : Val)
  | cond (c : FilterCondition)

/-- A schema: the `properties` mapping field name → Property, in insertion
order. -/
structure SchemaTemplate where
  properties : List (String × Property)

namespace Filter

/-- Embeds `Filter._build_condition`: resolve a FilterCondition against a Property
into `{"property": prop.name, prop.schema_key: {operator: value}}`. -/
def build_condition (prop : Property) (condition : FilterCondition) :
    Except PyErr Val := do
  let value := condition.value
  let operator := condition.operator
  let notion_prop_type ← prop.schema_key
  .ok (.dict [("property", .str prop.name),
              (notion_prop_type, .dict [(operator, value)])])

/-- Embeds `Filter._get_prop_filter`: look the Property up by name, then delegate
FilterCondition operands to `build_condition` and plain operands to the
Property's `to_notion_filter`. -/
def get_prop_filter (schema : SchemaTemplate) (prop_name : String)
    (value : FilterArg) : Except PyErr Val :=
  match List.lookup prop_name schema.properties with
  | Option.none => .error (.keyError
      ("Property " ++ prop_name ++ " not found in schema for filtering."))
  | some prop =>
    match value with
    | .cond c => build_condition prop c
    | .plain v => prop.to_notion_filter v

/-- Embeds `Filter._create_and_block`: an empty mapping yields `{}`; a one-field
mapping yields that field's clause unwrapped; otherwise the clauses are
wrapped in `{"and": [...]}`. -/
def create_and_block (schema : SchemaTemplate)
    (simple_filter : List (String × FilterArg)) : Except PyErr Val :=
  if simple_filter.isEmpty then .ok (.dict [])
  else do
    let filters ← mapExcept
      (fun kv => get_prop_filter schema kv.1 kv.2) simple_filter
    match filters with
    | [f] => .ok f
    | fs => .ok (.dict [("and", .list fs)])

/-- The `dict | list[dict]` argument accepted by `Filter.AND` / `Filter.OR`
(any other runtime type raises `TypeError` and is excluded by this type). -/
inductive FiltersArg where
  | dict (d : List (String × FilterArg))
  | list (l : List (List (String × FilterArg)))

/-- Embeds `Filter.AND`: a single mapping becomes one AND block; a list of mappings
becomes one block each, empty blocks removed, a single survivor returned
unwrapped, none at all yielding `{}`, otherwise `{"and": blocks}`. -/
def AND (schema : SchemaTemplate) : FiltersArg → Except PyErr Val
  | .dict d => create_and_block schema d
  | .list l => do
    let blocks ← mapExcept (create_and_block schema) l
    let blocks := blocks.filter Val.truthy
    match blocks with
    | [b] => .ok b
    | [] => .ok (.dict [])
    | bs => .ok (.dict [("and", .list bs)])

/-- Embeds `Filter.OR`: same collapsing as `AND` with key `"or"`. -/
def OR (schema : SchemaTemplate) : FiltersArg → Except PyErr Val
  | .dict d => create_and_block schema d
  | .list l => do
    let blocks ← mapExcept (create_and_block schema) l
    let blocks := blocks.filter Val.truthy
    match blocks with
    | [b] => .ok b
    | [] => .ok (.dict [])
    | bs => .ok (.dict [("or", .list bs)])

end Filter

/-- One `dict.update` step for a single binding: replace an existing binding
of the key in place, else append. -/
def updateEntry (d : List (String × Val)) (k : String) (v : Val) :
    List (String × Val) :=
  if d.any (fun p => p.1 == k) then
    d.map (fun p => if p.1 == k then (k, v) else p)
  else d ++ [(k, v)]

/-- Embeds `props.update(fragment)` where the fragment is the dict returned by
`Property.value` (always a dict; anything else would raise in Python and is
never produced here). -/
def dictUpdate (d : List (String × Val)) : Val → List (String × Val)
  | .dict kvs => kvs.foldl (fun acc p => updateEntry acc p.1 p.2) d
  | _ => d

/-- Embeds `Property.to_page_value`: the base-class implementation used by every
variant, `return self.value(value)` (the `name` argument is unused). -/
def Property.to_page_value (p : Property) (value : Val) (_nm : String) :
    Except PyErr Val :=
  p.value value

/-- Embeds `value is None`. -/
def isNoneVal : Val → Bool
  | .none => true
  | _ => false

/-- The body of `SchemaTemplate.to_page`'s per-field loop for one binding:
reject `None` for timestamp/user read-only fields, validate non-`None`
values, then encode. -/
def to_page_step (prop : Property) (nm : String) (value : Val) :
    Except PyErr Val := do
  if isNoneVal value && prop.isTimestampOrUser then
    .error (.valueError
      ("Cannot clear/set read-only property " ++ nm ++ " to None."))
  else do
    if !(isNoneVal value) then prop.validate_value value else .ok ()
    prop.to_page_value value nm

/-- The `for name, value in data.items()` loop of `SchemaTemplate.to_page`,
accumulating `props.update(...)` results.  `self.properties[name]` cannot
miss after the unknown-key check, but a miss is still a `KeyError`. -/
def to_page_loop (self : SchemaTemplate) (acc : List (String × Val)) :
    List (String × Val) → Except PyErr (List (String × Val))
  | [] => .ok acc
  | (nm, value) :: rest =>
    match List.lookup nm self.properties with
    | Option.none => .error (.keyError nm)
    | some prop => do
      let frag ← to_page_step prop nm value
      to_page_loop self (dictUpdate acc frag) rest

/-- Embeds `SchemaTemplate.to_page` (properties.py): reject unknown keys up front,
naming all of them, then encode field by field. -/
def SchemaTemplate.to_page (self : SchemaTemplate)
    (data : List (String × Val)) : Except PyErr Val := do
  let unknown_keys := (data.map Prod.fst).filter
    (fun k => (List.lookup k self.properties).isNone)
  if unknown_keys ≠ [] then .error (.unknownKeys unknown_keys)
  else do
    let props ← to_page_loop self [] data
    .ok (.dict props)

/-- The `for key, prop in self.properties.items()` loop of
`SchemaTemplate.from_page`: a truthy wire sub-object is decoded, anything
else (absent key or falsy value) yields `None` for that field. -/
def from_page_loop (page_props : Val) :
    List (String × Property) → Except PyErr (List (String × Val))
  | [] => .ok []
  | (key, prop) :: rest => do
    let notion_data := page_props.get key
    let v ← if notion_data.truthy
            then prop.from_page_value notion_data
            else .ok Val.none
    let tail ← from_page_loop page_props rest
    .ok ((key, v) :: tail)

/-- Embeds `SchemaTemplate.from_page`: emit the synthetic `id` field, then decode
every schema field in schema order. -/
def SchemaTemplate.from_page (self : SchemaTemplate) (page : Val) :
    Except PyErr Val := do
  let idv ← page.item "id"
  let page_props ← page.item "properties"
  let fields ← from_page_loop page_props self.properties
  .ok (.dict (("id", idv) :: fields))

/-- One server response to a query-page request:
`{results, next_cursor, has_more}`. -/
structure QueryResponse where
  results : List Val
  next_cursor : Val
  has_more : Bool

/-- The `over_requests` lambda of `query_pages`:
`False if max_requests is None else (len(results) / page_size) >= max_requests`
(Python float division modelled exactly as rational division). -/
def over_requests (max_requests : Option Int) (page_size : Int)
    (nresults : Nat) : Bool :=
  match max_requests with
  | Option.none => false
  | some m => decide ((nresults : ℚ) / (page_size : ℚ) ≥ (m : ℚ))

/-- The `while has_more and not over_requests()` loop of `query_pages`: each
iteration issues one request, consuming the server's next response, extends
the accumulated results and updates cursor/has_more.  Returns the raw
accumulated results and the number of requests issued.  `responses` is the
sequence of responses the server returns along the cursor chain; the loop
never outlives it in the scenarios modelled (the last response has
`has_more = false`). -/
def query_pages_loop (page_size : Int) (max_requests : Option Int)
    (results : List Val) (has_more : Bool) :
    List QueryResponse → List Val × Nat
  | [] => (results, 0)
  | r :: rest =>
    if has_more && !over_requests max_requests page_size results.length then
      let (res, n) :=
        query_pages_loop page_size max_requests (results ++ r.results)
          r.has_more rest
      (res, n + 1)
    else (results, 0)

/-- Embeds `NotionDSManager.query_pages` (core.py): paginate, then decode every
accumulated raw page with the data source's `SchemaTemplate.from_page`.
Returns the decoded records (the list comprehension raises on the first
decode failure) paired with the number of requests issued. -/
def query_pages (tmpl : SchemaTemplate) (responses : List QueryResponse)
    (page_size : Int) (max_requests : Option Int) :
    Except PyErr (List Val) × Nat :=
  let (results, n) := query_pages_loop page_size max_requests [] true responses
  (mapExcept tmpl.from_page results, n)

/-! Concrete schemas used by the theorems below. -/

/-- A schema with a single select field `Status` (no options). -/
def statusTemplate : SchemaTemplate := ⟨[("Status", .select "Status" [])]⟩

/-- A schema with two number fields `a` and `b`. -/
def abTemplate : SchemaTemplate := ⟨[("a", .number "a"), ("b", .number "b")]⟩

/-- A schema with a title field `T` and a rich-text field `R`. -/
def textTemplate : SchemaTemplate :=
  ⟨[("T", .title "T"), ("R", .rich_text "R")]⟩

/-! ## Claims -/

/-- C2.  For every field and explicit operator+operand condition, the
filter API is claimed to resolve the tagged condition into
`{property: name, schema_key: {operator: operand}}` without raising.  On the
code this fails: `Filter._build_condition` reads `prop.schema_key`, an
attribute no Property class defines, so the lookup raises `AttributeError`
for every property and every condition — here evaluated at the select field
`Status` with condition `Equals("Done")`, which the docstring of
`_build_condition` itself promises to resolve to
`{"property": "Status", "status": {"equals": "Done"}}`. -/
theorem build_condition_raises_attribute_error :
    Filter.get_prop_filter statusTemplate "Status"
      (.cond (Equals (.str "Done"))) = .error (.attributeError "schema_key") := by
  rfl

/-- C3.  For a text-like field (title or rich-text) and a blank or null
plain operand, `Filter._get_prop_filter` yields the `is_empty` clause for
that field, overriding the variant's default `contains` operator. -/
theorem blank_text_operand_yields_is_empty (s : SchemaTemplate)
    (k n : String) (v : Val) (hb : v.isBlank = true) :
    (List.lookup k s.properties = some (.title n) →
      Filter.get_prop_filter s k (.plain v)
        = .ok (propFilter n "title" "is_empty" (.bool true))) ∧
    (List.lookup k s.properties = some (.rich_text n) →
      Filter.get_prop_filter s k (.plain v)
        = .ok (propFilter n "rich_text" "is_empty" (.bool true))) := by
  constructor <;> intro h <;>
    simp [Filter.get_prop_filter, h, Property.to_notion_filter, hb]

/-- Witness for C3: the blank operand `"  "` on the title field `T` and the
null operand on the rich-text field `R` of `textTemplate`. -/
theorem blank_text_operand_yields_is_empty_witness :
    Filter.get_prop_filter textTemplate "T" (.plain (.str "  "))
      = .ok (propFilter "T" "title" "is_empty" (.bool true)) ∧
    Filter.get_prop_filter textTemplate "R" (.plain Val.none)
      = .ok (propFilter "R" "rich_text" "is_empty" (.bool true)) :=
  ⟨(blank_text_operand_yields_is_empty textTemplate "T" "T" (.str "  ")
      (by decide)).1 (by rfl),
   (blank_text_operand_yields_is_empty textTemplate "R" "R" Val.none
      (by rfl)).2 (by rfl)⟩

/-- C4.  Filter-group collapsing: combining an empty group list under AND
or OR yields `{}`; a one-entry list whose mapping has one field yields that
field's clause unwrapped; a two-group list yields `{"and": [c1, c2]}` under
AND and `{"or": [c1, c2]}` under OR. -/
theorem filter_group_collapsing (s : SchemaTemplate) (f1 f2 : String)
    (v1 v2 : FilterArg) (c1 c2 : Val)
    (h1 : Filter.get_prop_filter s f1 v1 = .ok c1)
    (h2 : Filter.get_prop_filter s f2 v2 = .ok c2)
    (t1 : c1.truthy = true) (t2 : c2.truthy = true) :
    Filter.AND s (.list []) = .ok (.dict []) ∧
    Filter.OR s (.list []) = .ok (.dict []) ∧
    Filter.AND s (.list [[(f1, v1)]]) = .ok c1 ∧
    Filter.OR s (.list [[(f1, v1)]]) = .ok c1 ∧
    Filter.AND s (.list [[(f1, v1)], [(f2, v2)]])
      = .ok (.dict [("and", .list [c1, c2])]) ∧
    Filter.OR s (.list [[(f1, v1)], [(f2, v2)]])
      = .ok (.dict [("or", .list [c1, c2])]) := by
  refine ⟨rfl, rfl, ?_, ?_, ?_, ?_⟩ <;>
    simp [Filter.AND, Filter.OR, Filter.create_and_block, mapExcept, h1, h2,
      t1, t2, Bind.bind, Except.bind, List.filter]

/-- Witness for C4: the number fields `a`, `b` of `abTemplate` with plain
operands `1` and `2`. -/
theorem filter_group_collapsing_witness :
    Filter.AND abTemplate (.list []) = .ok (.dict []) ∧
    Filter.OR abTemplate (.list []) = .ok (.dict []) ∧
    Filter.AND abTemplate (.list [[("a", .plain (.int 1))]])
      = .ok (propFilter "a" "number" "equals" (.int 1)) ∧
    Filter.OR abTemplate (.list [[("a", .plain (.int 1))]])
      = .ok (propFilter "a" "number" "equals" (.int 1)) ∧
    Filter.AND abTemplate (.list [[("a", .plain (.int 1))], [("b", .plain (.int 2))]])
      = .ok (.dict [("and", .list [propFilter "a" "number" "equals" (.int 1),
                                   propFilter "b" "number" "equals" (.int 2)])]) ∧
    Filter.OR abTemplate (.list [[("a", .plain (.int 1))], [("b", .plain (.int 2))]])
      = .ok (.dict [("or", .list [propFilter "a" "number" "equals" (.int 1),
                                  propFilter "b" "number" "equals" (.int 2)])]) :=
  filter_group_collapsing abTemplate "a" "b" (.plain (.int 1)) (.plain (.int 2))
    (propFilter "a" "number" "equals" (.int 1))
    (propFilter "b" "number" "equals" (.int 2))
    (by rfl) (by rfl) (by rfl) (by rfl)

/-- Joining the empty string to the left is the identity. -/
theorem empty_append_str (s : String) : "" ++ s = s := by
  cases s
  rfl

/-- Joining a singleton list is the string itself. -/
theorem join_singleton (s : String) : String.join [s] = s := by
  cases s
  rfl

/-- Decoding `[item[key] for item in ...]` over a list built as
`[{key: x} for x in xs]` recovers `xs`. -/
theorem mapExcept_item_singleton (key : String) (xs : List Val) :
    mapExcept (fun it => it.item key) (xs.map (fun x => Val.dict [(key, x)]))
      = .ok xs := by
  induction xs with
  | nil => rfl
  | cons x xs ih =>
    have hx : (Val.dict [(key, x)]).item key = .ok x := by
      simp [Val.item, List.lookup]
    simp only [List.map_cons, mapExcept, hx, ih, Bind.bind, Except.bind]

/-- C1.  For every non-read-only Property variant and every plain value
accepted by the variant's `validate_value`, the wire fragment built by
`value` decodes back to the same plain value through `from_page_value`. -/
theorem encode_decode_roundtrip (p : Property) (v : Val)
    (hro : p.read_only = false) (hval : p.validate_value v = .ok ()) :
    ∃ frag, p.value v = .ok (.dict [(p.name, frag)]) ∧
      p.from_page_value frag = .ok v := by
  cases p <;> simp [Property.read_only] at hro <;>
    cases v <;> simp [Property.validate_value] at hval <;>
    first
      | exact ⟨_, rfl, rfl⟩
      | exact ⟨_, rfl, by
          simp only [Property.from_page_value, Property.from_page_value_nr,
            Val.lookup?, List.lookup, beq_self_eq_true,
            mapExcept_item_singleton, Bind.bind, Except.bind]⟩

/-- Witness for C1: the title field `T` round-trips the string `"hi"`. -/
theorem encode_decode_roundtrip_witness :
    ∃ frag, (Property.title "T").value (.str "hi") = .ok (.dict [("T", frag)]) ∧
      (Property.title "T").from_page_value frag = .ok (.str "hi") :=
  encode_decode_roundtrip (.title "T") (.str "hi") rfl rfl

/-- The decode loop preserves the schema's field names exactly and maps
fields whose wire sub-object is missing (`.get` returns `None`) to `None`. -/
theorem from_page_loop_spec (pp : Val) :
    ∀ (props : List (String × Property)) (fields : List (String × Val)),
      from_page_loop pp props = .ok fields →
      fields.map Prod.fst = props.map Prod.fst ∧
      ∀ kp ∈ props, pp.get kp.1 = Val.none → (kp.1, Val.none) ∈ fields := by
  intro props
  induction props with
  | nil =>
    intro fields h
    simp only [from_page_loop] at h
    cases h
    simp
  | cons kp rest ih =>
    intro fields h
    obtain ⟨key, prop⟩ := kp
    simp only [from_page_loop, Bind.bind, Except.bind] at h
    cases ht : (pp.get key).truthy with
    | false =>
      rw [ht] at h
      simp only [Bool.false_eq_true, if_false] at h
      cases hloop : from_page_loop pp rest with
      | error e => rw [hloop] at h; cases h
      | ok tail =>
        rw [hloop] at h
        cases h
        obtain ⟨hkeys, hmem⟩ := ih tail hloop
        refine ⟨by simp [hkeys], ?_⟩
        intro kp' hkp' hnone
        rcases List.mem_cons.mp hkp' with heq | htl
        · subst heq; exact List.mem_cons_self _ _
        · exact List.mem_cons_of_mem _ (hmem kp' htl hnone)
    | true =>
      rw [ht] at h
      simp only [if_true] at h
      cases hv : prop.from_page_value (pp.get key) with
      | error e => rw [hv] at h; cases h
      | ok v =>
        rw [hv] at h
        cases hloop : from_page_loop pp rest with
        | error e => rw [hloop] at h; cases h
        | ok tail =>
          rw [hloop] at h
          cases h
          obtain ⟨hkeys, hmem⟩ := ih tail hloop
          refine ⟨by simp [hkeys], ?_⟩
          intro kp' hkp' hnone
          rcases List.mem_cons.mp hkp' with heq | htl
          · subst heq
            rw [hnone] at ht
            cases ht
          · exact List.mem_cons_of_mem _ (hmem kp' htl hnone)

/-- C6.  Decoding a wire record yields a plain record containing the
synthetic `id` key and every schema field name as a key; a field whose key is
absent from the wire record's properties (so `properties.get` yields `None`)
is mapped to `None` rather than omitted. -/
theorem from_page_contains_all_schema_fields (s : SchemaTemplate)
    (page pp : Val) (kvs : List (String × Val))
    (h : s.from_page page = .ok (.dict kvs))
    (hpp : page.item "properties" = .ok pp) :
    "id" ∈ kvs.map Prod.fst ∧
    ∀ kp ∈ s.properties, kp.1 ∈ kvs.map Prod.fst ∧
      (pp.get kp.1 = Val.none → (kp.1, Val.none) ∈ kvs) := by
  simp only [SchemaTemplate.from_page, Bind.bind, Except.bind, hpp] at h
  cases hid : page.item "id" with
  | error e => rw [hid] at h; cases h
  | ok idv =>
    rw [hid] at h
    cases hloop : from_page_loop pp s.properties with
    | error e => rw [hloop] at h; cases h
    | ok fields =>
      rw [hloop] at h
      injection h with h1
      injection h1 with h2
      subst h2
      obtain ⟨hkeys, hmem⟩ := from_page_loop_spec pp s.properties fields hloop
      refine ⟨by simp, ?_⟩
      intro kp hkp
      constructor
      · have : kp.1 ∈ fields.map Prod.fst := by
          rw [hkeys]
          exact List.mem_map_of_mem _ hkp
        simp only [List.map_cons]
        exact List.mem_cons_of_mem _ this
      · intro hnone
        exact List.mem_cons_of_mem _ (hmem kp hkp hnone)

/-- Witness for C6: a wire record with only field `T` present decodes under
`textTemplate` to a record with keys `id`, `T`, `R`, the absent `R` mapped
to `None`. -/
theorem from_page_contains_all_schema_fields_witness :
    "id" ∈ ([("id", Val.str "page-1"),
             ("T", Val.str "hi"), ("R", Val.none)].map Prod.fst) ∧
    ∀ kp ∈ textTemplate.properties,
      kp.1 ∈ ([("id", Val.str "page-1"),
               ("T", Val.str "hi"), ("R", Val.none)].map Prod.fst) ∧
      ((Val.dict [("T", .dict [("title", .list [.dict [("type", .str "text"),
          ("text", .dict [("content", .str "hi")])]])])]).get kp.1 = Val.none →
        (kp.1, Val.none) ∈ [("id", Val.str "page-1"),
          ("T", Val.str "hi"), ("R", Val.none)]) :=
  from_page_contains_all_schema_fields textTemplate
    (.dict [("id", .str "page-1"),
            ("properties", .dict [("T", .dict [("title",
              .list [.dict [("type", .str "text"),
                ("text", .dict [("content", .str "hi")])]])])])])
    (.dict [("T", .dict [("title", .list [.dict [("type", .str "text"),
      ("text", .dict [("content", .str "hi")])]])])])
    [("id", Val.str "page-1"), ("T", Val.str "hi"), ("R", Val.none)]
    (by rfl) (by rfl)

/-- C7.  Encoding a plain record that contains at least one key not in
the schema raises a `KeyError` naming every unknown key, and produces no
wire record. -/
theorem to_page_rejects_unknown_keys (s : SchemaTemplate)
    (data : List (String × Val)) (k : String)
    (hk : k ∈ data.map Prod.fst)
    (hu : List.lookup k s.properties = Option.none) :
    ∃ uk, s.to_page data = .error (.unknownKeys uk) ∧
      ∀ k' ∈ data.map Prod.fst,
        List.lookup k' s.properties = Option.none → k' ∈ uk := by
  refine ⟨(data.map Prod.fst).filter
    (fun k => (List.lookup k s.properties).isNone), ?_, ?_⟩
  · have hmem : k ∈ (data.map Prod.fst).filter
        (fun k => (List.lookup k s.properties).isNone) :=
      List.mem_filter.mpr ⟨hk, by simp [hu]⟩
    have hne : (data.map Prod.fst).filter
        (fun k => (List.lookup k s.properties).isNone) ≠ [] := by
      intro h0
      rw [h0] at hmem
      cases hmem
    simp [SchemaTemplate.to_page, hne]
  · intro k' h1 h2
    exact List.mem_filter.mpr ⟨h1, by simp [h2]⟩

/-- Witness for C7: encoding `{"Status": "Done", "Bogus": 1}` against the
select-only schema `statusTemplate`. -/
theorem to_page_rejects_unknown_keys_witness :
    ∃ uk, statusTemplate.to_page
        [("Status", .str "Done"), ("Bogus", .int 1)]
        = .error (.unknownKeys uk) ∧
      ∀ k' ∈ ([("Status", Val.str "Done"),
               ("Bogus", Val.int 1)].map Prod.fst),
        List.lookup k' statusTemplate.properties = Option.none → k' ∈ uk :=
  to_page_rejects_unknown_keys statusTemplate
    [("Status", .str "Done"), ("Bogus", .int 1)] "Bogus"
    (by simp) (by rfl)

/-- One encode-loop step on a read-only field always raises: `None` is
rejected by the explicit timestamp/user check (or, for rollups, by
`Rollup.value`), and any other value is rejected by `validate_value`. -/
theorem to_page_step_read_only_error (p : Property) (nm : String) (v : Val)
    (hro : p.read_only = true) : ∃ e, to_page_step p nm v = .error e := by
  cases p <;> simp [Property.read_only] at hro <;> cases v <;> exact ⟨_, rfl⟩

/-- The encode loop raises whenever the record binds a read-only field. -/
theorem to_page_loop_read_only_error (s : SchemaTemplate) :
    ∀ (data : List (String × Val)) (acc : List (String × Val))
      (k : String) (v : Val) (p : Property),
      (k, v) ∈ data → List.lookup k s.properties = some p →
      p.read_only = true → ∃ e, to_page_loop s acc data = .error e := by
  intro data
  induction data with
  | nil =>
    intro acc k v p hmem
    cases hmem
  | cons kv rest ih =>
    intro acc k v p hmem hlk hro
    obtain ⟨k0, v0⟩ := kv
    rcases List.mem_cons.mp hmem with heq | hmem'
    · injection heq with hk0 hv0
      subst hk0
      subst hv0
      obtain ⟨e, he⟩ := to_page_step_read_only_error p k v hro
      exact ⟨e, by simp [to_page_loop, hlk, he, Bind.bind, Except.bind]⟩
    · cases hlk0 : List.lookup k0 s.properties with
      | none => exact ⟨.keyError k0, by simp [to_page_loop, hlk0]⟩
      | some p0 =>
        cases hstep : to_page_step p0 k0 v0 with
        | error e =>
          exact ⟨e, by simp [to_page_loop, hlk0, hstep, Bind.bind, Except.bind]⟩
        | ok frag =>
          obtain ⟨e, he⟩ := ih (dictUpdate acc frag) k v p hmem' hlk hro
          exact ⟨e, by simp [to_page_loop, hlk0, hstep, he, Bind.bind, Except.bind]⟩

/-- C8.  For every read-only field (created-time, last-edited-time,
created-by, last-edited-by, rollup) and every input value including `None`,
encoding a record that binds that field through `to_page` raises. -/
theorem to_page_read_only_always_raises (s : SchemaTemplate)
    (data : List (String × Val)) (k : String) (v : Val) (p : Property)
    (hmem : (k, v) ∈ data) (hlk : List.lookup k s.properties = some p)
    (hro : p.read_only = true) :
    ∃ e, s.to_page data = .error e := by
  by_cases hne : ((data.map Prod.fst).filter
      (fun k => (List.lookup k s.properties).isNone)) = []
  · obtain ⟨e, he⟩ := to_page_loop_read_only_error s data [] k v p hmem hlk hro
    exact ⟨e, by simp [SchemaTemplate.to_page, hne, he, Bind.bind, Except.bind]⟩
  · exact ⟨.unknownKeys ((data.map Prod.fst).filter
      (fun k => (List.lookup k s.properties).isNone)),
      by simp [SchemaTemplate.to_page, hne]⟩

/-- A schema with a single created-time field `C`. -/
def createdTemplate : SchemaTemplate := ⟨[("C", .created_time "C")]⟩

/-- Witness for C8: both a non-null value and `None` for the created-time
field `C` make `to_page` raise. -/
theorem to_page_read_only_always_raises_witness :
    (∃ e, createdTemplate.to_page [("C", .str "2024-01-01")] = .error e) ∧
    (∃ e, createdTemplate.to_page [("C", Val.none)] = .error e) :=
  ⟨to_page_read_only_always_raises createdTemplate [("C", .str "2024-01-01")]
      "C" (.str "2024-01-01") (.created_time "C") (by simp) (by rfl) (by rfl),
   to_page_read_only_always_raises createdTemplate [("C", Val.none)]
      "C" Val.none (.created_time "C") (by simp) (by rfl) (by rfl)⟩

/-- The two non-read-only variants whose encoder iterates over its argument
(`[... for x in value]`), and so raises `TypeError` on `None`. -/
def Property.iterates_on_encode : Property → Bool
  | .multi_select _ _ | .relation _ _ => true
  | _ => false

/-- A schema with a single multi-select field `Tags`. -/
def tagsTemplate : SchemaTemplate := ⟨[("Tags", .multi_select "Tags" [])]⟩

/-- C10 counterexample.  The claim says encoding `None` for any
non-read-only field never raises; but for the multi-select field `Tags`,
`to_page` skips validation and then `MultiSelect.value(None)` iterates over
`None`, raising `TypeError`. -/
theorem to_page_none_multi_select_raises :
    tagsTemplate.to_page [("Tags", Val.none)]
      = .error (.typeError "object is not iterable") := by
  rfl

/-- C10 amended.  For every non-read-only field except MultiSelect and
Relation, encoding a record binding that field to `None` does not raise:
validation is skipped (the same `None` would fail `validate_value`) and the
variant's encoding of `None` is emitted. -/
theorem to_page_none_skips_validation (s : SchemaTemplate) (k : String)
    (p : Property) (hlk : List.lookup k s.properties = some p)
    (hro : p.read_only = false) (hit : p.iterates_on_encode = false) :
    (∃ e, p.validate_value Val.none = .error e) ∧
    ∃ kvs, p.value Val.none = .ok (.dict kvs) ∧
      s.to_page [(k, Val.none)] = .ok (.dict kvs) := by
  cases p <;>
    simp [Property.read_only] at hro <;>
    simp [Property.iterates_on_encode] at hit <;>
    exact ⟨⟨_, rfl⟩, _, rfl, by
      simp [SchemaTemplate.to_page, to_page_loop, to_page_step, hlk,
        isNoneVal, Property.isTimestampOrUser, Property.to_page_value,
        Property.value, dictUpdate, updateEntry, Bind.bind, Except.bind]⟩

/-- A schema with a single date field `D`. -/
def dateTemplate : SchemaTemplate := ⟨[("D", .date "D")]⟩

/-- Witness for amended C10: the date field `D` — `None` fails the type
check yet `to_page` succeeds, emitting `{"date": null}`. -/
theorem to_page_none_skips_validation_witness :
    ((∃ e, (Property.date "D").validate_value Val.none = .error e) ∧
     ∃ kvs, (Property.date "D").value Val.none = .ok (.dict kvs) ∧
       dateTemplate.to_page [("D", Val.none)] = .ok (.dict kvs)) ∧
    dateTemplate.to_page [("D", Val.none)]
      = .ok (.dict [("D", .dict [("date", Val.none)])]) :=
  ⟨to_page_none_skips_validation dateTemplate "D" (.date "D") rfl rfl rfl,
   by rfl⟩

/-- Decoding an array of select-shaped rollup elements with the temp select
instance yields the list of selected names. -/
theorem mapExcept_select_elements (names : List Val) :
    mapExcept
      (Property.from_page_value_nr (.select "__temp_rollup_parser__" []))
      (names.map (fun s => Val.dict [("type", .str "select"),
        ("select", .dict [("name", s)])]))
      = .ok names := by
  induction names with
  | nil => rfl
  | cons x xs ih =>
    have hx : Property.from_page_value_nr (.select "__temp_rollup_parser__" [])
        (Val.dict [("type", .str "select"),
          ("select", .dict [("name", x)])]) = .ok x := rfl
    simp only [List.map_cons, mapExcept, hx, ih, Bind.bind, Except.bind]

/-- C9.  Rollup decode of a list-shaped wire fragment whose elements
report kind `"select"` returns the list of selected option names (the select
decoder applied per element); when the first element's reported kind matches
no registered variant, the raw element list is returned unchanged. -/
theorem rollup_array_decode (nm rp rpn fn : String) :
    (∀ (names : List Val), names ≠ [] →
      (Property.rollup nm rp rpn fn).from_page_value
        (.dict [("rollup", .dict [("type", .str "array"),
          ("array", .list (names.map (fun s =>
            Val.dict [("type", .str "select"),
                      ("select", .dict [("name", s)])])))])])
        = .ok (.list names)) ∧
    (∀ (first : Val) (rest : List Val),
      lookupPropClass (first.get "type") = Option.none →
      (Property.rollup nm rp rpn fn).from_page_value
        (.dict [("rollup", .dict [("type", .str "array"),
          ("array", .list (first :: rest))])])
        = .ok (.list (first :: rest))) := by
  constructor
  · intro names hne
    cases names with
    | nil => exact absurd rfl hne
    | cons x xs =>
      simp only [Property.from_page_value, List.map_cons]
      simp [Val.get, Val.getD, Val.lookup?, List.lookup, Val.truthy,
        isArrayTag, lookupPropClass, PROPERTY_TYPES, PropClass.mkTemp,
        mapExcept_select_elements, Bind.bind, Except.bind]
      have := mapExcept_select_elements (x :: xs)
      simp only [List.map_cons] at this
      simp [this, Bind.bind, Except.bind]
  · intro first rest hlk
    simp only [Val.get, Val.lookup?] at hlk
    simp only [Property.from_page_value]
    simp [Val.get, Val.getD, Val.lookup?, List.lookup, Val.truthy,
      isArrayTag, hlk]

/-- Witness for C9: two select elements `A`, `B` decode to `["A", "B"]`, and
a first element of unregistered kind `"status"` returns the raw list. -/
theorem rollup_array_decode_witness :
    (Property.rollup "R" "rel" "f" "show_original").from_page_value
      (.dict [("rollup", .dict [("type", .str "array"),
        ("array", .list [.dict [("type", .str "select"),
                                ("select", .dict [("name", .str "A")])],
                         .dict [("type", .str "select"),
                                ("select", .dict [("name", .str "B")])]])])])
      = .ok (.list [.str "A", .str "B"]) ∧
    (Property.rollup "R" "rel" "f" "show_original").from_page_value
      (.dict [("rollup", .dict [("type", .str "array"),
        ("array", .list [.dict [("type", .str "status")]])])])
      = .ok (.list [.dict [("type", .str "status")]]) :=
  ⟨(rollup_array_decode "R" "rel" "f" "show_original").1
      [.str "A", .str "B"] (by simp),
   (rollup_array_decode "R" "rel" "f" "show_original").2
      (.dict [("type", .str "status")]) [] (by rfl)⟩

/-- A minimal wire record: an id and an empty properties dict. -/
def dummyPage : Val := .dict [("id", .str "p"), ("properties", .dict [])]

/-- A schema with one title field `T` (used to decode `dummyPage`). -/
def titleTemplate : SchemaTemplate := ⟨[("T", .title "T")]⟩

/-- What `dummyPage` decodes to under `titleTemplate`. -/
def decodedDummy : Val := .dict [("id", .str "p"), ("T", Val.none)]

/-- A server returning three pages of 100, 100 and 37 results, with
`has_more` false only on the third. -/
def server3 : List QueryResponse :=
  [⟨List.replicate 100 dummyPage, .str "c1", true⟩,
   ⟨List.replicate 100 dummyPage, .str "c2", true⟩,
   ⟨List.replicate 37 dummyPage, Val.none, false⟩]

/-- Decoding a replicated raw page list yields the replicated decode. -/
theorem mapExcept_replicate {f : Val → Except PyErr Val} {x y : Val}
    (h : f x = .ok y) :
    ∀ n, mapExcept f (List.replicate n x) = .ok (List.replicate n y) := by
  intro n
  induction n with
  | zero => rfl
  | succ n ih =>
    simp [List.replicate_succ, mapExcept, h, ih, Bind.bind, Except.bind]

/-- With no ceiling, the request-ceiling guard never fires. -/
theorem over_requests_none (page_size : Int) (n : Nat) :
    over_requests Option.none page_size n = false := rfl

/-- Because `0 / 100 >= 1` is false, the guard lets the first request through. -/
theorem over_requests_one_zero : over_requests (some 1) 100 0 = false := by
  simp [over_requests]

/-- Because `100 / 100 >= 1` holds, after one full page the ceiling of 1 fires. -/
theorem over_requests_one_hundred : over_requests (some 1) 100 100 = true := by
  simp [over_requests]

/-- C5.  Against `server3` with page size 100, `query_pages` with no
request ceiling returns exactly 237 decoded records in 3 requests, and with
a ceiling (`max_requests`) of 1 it stops after the first page (1 request,
100 records) even though the server still reports `has_more`. -/
theorem query_pages_pagination_counts :
    query_pages titleTemplate server3 100 Option.none
      = (.ok (List.replicate 237 decodedDummy), 3) ∧
    query_pages titleTemplate server3 100 (some 1)
      = (.ok (List.replicate 100 decodedDummy), 1) := by
  constructor
  · set_option maxRecDepth 10000 in rfl
  · have hdec : titleTemplate.from_page dummyPage = .ok decodedDummy := rfl
    simp [query_pages, server3, query_pages_loop, over_requests_one_zero,
      over_requests_one_hundred, mapExcept_replicate hdec,
      -List.reduceReplicate]

end NotionDs
